import Mathlib

/-!
The transcript scraper and the password helper of tbot.

A shallow embedding of `scraper/scraper.go` and `auth/user.go`.

* Go `int` is a 64-bit signed integer, held in `Int`; the places where the
  width matters (`strconv.Atoi`, `time.Duration` arithmetic) clamp or wrap
  explicitly.
* A `goquery` selection is the list of the nodes it holds, a node being the
  list of its attributes; the text of a selection is a `String`. A `Document`
  lists the selections `Each` visits; for a fetched page that is the root
  node alone (`rootBlock`).
* A mutex is a held/free flag. `Lock` on a held mutex never returns, which is
  the outcome `Stuck.blocked`; unbounded loops take a step budget and
  `Stuck.fuel` is the outcome of exhausting it.
* The collaborators that are not part of the two files (the document source,
  the clock, the persistence write, `strings.ToLower`, `bcrypt`, the random
  source) are parameters.
* A `*Message` is a `Message` value: the pointers of the source are taken to
  be non-nil. An instant is a number of nanoseconds since the epoch.
* Calls run one at a time: every operation starts from the state its
  predecessor left, which is what "no call interleaved" means in the
  statements below.
-/

set_option autoImplicit false

deriving instance DecidableEq for Except

namespace Tbot

/-! ## Library functions used by the scraper -/

/-- The outcomes of a call that does not return to its caller. -/
inductive Stuck where
  | blocked
  | fuel
  | crash
deriving DecidableEq, Repr

/-- The value of a decimal digit, `none` for any other character. -/
def digitVal (c : Char) : Option Nat :=
  if 48 ≤ c.toNat ∧ c.toNat ≤ 57 then some (c.toNat - 48) else none

/-- The number written by a run of decimal digits, `none` if a character is
not a digit. -/
def parseDigits : List Char → Nat → Option Nat
  | [], acc => some acc
  | c :: cs, acc =>
    match digitVal c with
    | none => none
    | some d => parseDigits cs (acc * 10 + d)

/-- The largest Go `int`. -/
def maxInt : Int := 2 ^ 63 - 1

/-- The smallest Go `int`. -/
def minInt : Int := -(2 ^ 63)

/-- Go `strconv.Atoi`: an optional sign and decimal digits. The second
component is `true` when an error is returned: on a syntax error the value is
`0`, on a range error it is the nearest representable `int`. -/
def strconvAtoi (s : String) : Int × Bool :=
  let body : List Char × Bool :=
    match s.data with
    | '-' :: cs => (cs, true)
    | '+' :: cs => (cs, false)
    | cs => (cs, false)
  match body.1 with
  | [] => (0, true)
  | cs =>
    match parseDigits cs 0 with
    | none => (0, true)
    | some n =>
      if body.2 then
        if (n : Int) > 2 ^ 63 then (minInt, true) else (-(n : Int), false)
      else
        if (n : Int) > maxInt then (maxInt, true) else ((n : Int), false)

/-- Source `atoi`: the value of `strconv.Atoi`, its error dropped. -/
def atoi (str : String) : Int := (strconvAtoi str).1

/-- Whether `sub` occurs in `s` as a contiguous run. -/
def containsChars (s sub : List Char) : Bool :=
  match s with
  | [] => sub.isEmpty
  | c :: cs => sub.isPrefixOf (c :: cs) || containsChars cs sub

/-- Go `strings.Contains`. -/
def Contains (s substr : String) : Bool := containsChars s.data substr.data

/-- An ASCII rendering of `strings.ToLower`, used for concrete pages. -/
def asciiLower (s : String) : String := String.mk (s.data.map Char.toLower)

/-! ## The document model -/

/-- An element of a parsed page: its attributes, by name. -/
structure Node where
  attrs : List (String × String)
deriving DecidableEq, Repr

/-- A `goquery` selection: the nodes it holds, in document order. -/
abbrev Selection := List Node

/-- The `AttrOr` of `goquery`: the attribute of the first node of the
selection, or the default when the selection is empty or the attribute is
missing. -/
def AttrOr (sel : Selection) (attrName dflt : String) : String :=
  match sel with
  | [] => dflt
  | n :: _ => (n.attrs.lookup attrName).getD dflt

/-- One selection visited by `Each` in `scrapePage`, seen through the four
queries the callback makes on it. -/
structure Block where
  /-- The result of `selection.Find("a[name]")`. -/
  link : Selection
  /-- The result of `selection.Find(".content").Text()`. -/
  content : String
  /-- The result of `selection.Find(".stars .times").Text()`. -/
  stars : String
  /-- The result of
  `selection.Parent().Find(".signature .username").Text()`. -/
  username : String
deriving DecidableEq, Repr

/-- A parsed page, seen through the queries `scrapePage` and `scrape` make. -/
structure Document where
  /-- The selections `document.Each` visits, in document order. The selection
  of a `Document` that `goquery.NewDocument` returns holds the root node only,
  so for a fetched page this is the one selection `rootBlock` builds. -/
  blocks : List Block
  /-- The result of `document.Find("a[rel=prev]")`. -/
  relPrev : Selection
  /-- The result of `document.Find(".pager .current").NextFiltered("a")`. -/
  pagerNext : Selection
  /-- The result of `document.Find("a[rel=prev]").NextFiltered("a")`. -/
  relPrevNext : Selection
deriving DecidableEq, Repr

/-! ## The two stores -/

/-- A candidate message. -/
structure Message where
  ID : Int
  URL : String
  Body : String
  Author : String
  Stars : Int
deriving DecidableEq, Repr

/-- The polling configuration. -/
structure Settings where
  PollURL : String
  PollRoomID : Int
  PollFrequency : Int
  MinStars : Int
  MatchingWords : List String
deriving DecidableEq, Repr

/-- The scrape results; `LastScrape` is in nanoseconds since the epoch. -/
structure ScrapeState where
  LastScrape : Int
  EarliestID : Int
  Messages : List Message
  MessagesUsed : List Int
deriving DecidableEq, Repr

/-- Modelled from the spec: the declaration of the `data` store is not among
the source files. It is the `ScrapeState` record guarded by one exclusive
lock, with the path of its JSON document; `document` is the content of that
document on disk. -/
structure data where
  state : ScrapeState
  name : String
  held : Bool
  document : ScrapeState
deriving DecidableEq, Repr

/-- Modelled from the spec: the declaration of the `settings` store is not
among the source files. It is the `Settings` record guarded by one exclusive
lock, with the path of its JSON document; `document` is the content of that
document on disk. -/
structure settings where
  Settings : Settings
  name : String
  held : Bool
  document : Tbot.Settings
deriving DecidableEq, Repr

/-- The scraper: its two stores (the close channel is not modelled). -/
structure Scraper where
  data : data
  settings : settings
deriving DecidableEq, Repr

/-- The `Lock` of the mutex of the `data` store. -/
def data.Lock (d : data) : Except Stuck data :=
  if d.held then .error .blocked else .ok { d with held := true }

/-- The `Unlock` of the mutex of the `data` store; unlocking a free mutex is
a fatal error of the Go runtime. -/
def data.Unlock (d : data) : Except Stuck data :=
  if d.held then .ok { d with held := false } else .error .crash

/-- The `Lock` of the mutex of the `settings` store. -/
def settings.Lock (d : settings) : Except Stuck settings :=
  if d.held then .error .blocked else .ok { d with held := true }

/-- The `Unlock` of the mutex of the `settings` store. -/
def settings.Unlock (d : settings) : Except Stuck settings :=
  if d.held then .ok { d with held := false } else .error .crash

/-- Modelled from the spec: `data.save` is not among the source files. It
rewrites the JSON document wholesale from the in-memory record and returns an
error when the write fails (`fails`), in which case the document is left as it
was. It does not touch the lock: `Use` calls it with the lock held and
releases the lock afterwards. -/
def data.save (fails : Bool) (d : data) : Bool × data :=
  if fails then (true, d) else (false, { d with document := d.state })

/-! ## The page scanner -/

/-- The two results of `scrapePage` while `Each` runs. -/
structure PageAcc where
  earliestID : Int
  messages : List Message
deriving DecidableEq, Repr

/-- The callback `scrapePage` passes to `document.Each`, on one selection. -/
def scrapeBlock (lower : String → String) (pollURL : String) (minStars : Int)
    (matchingWords : List String) (messagesUsed : List Int)
    (acc : PageAcc) (selection : Block) : PageAcc :=
  let link := selection.link
  let id := atoi (AttrOr link "name" "")
  if id = 0 then acc
  else
    let earliestID := if acc.earliestID = 0 then id else acc.earliestID
    let body := selection.content
    let stars := atoi selection.stars
    let foundMatch := matchingWords.foldl
      (fun found w => if Contains (lower body) (lower w) then true else found) false
    if foundMatch = true ∨ stars ≥ minStars then
      let messageUsed := messagesUsed.foldl
        (fun used m => if m = id then true else used) false
      if messageUsed = false then
        let m : Message :=
          { ID := id
            URL := pollURL ++ AttrOr link "href" ""
            Body := body
            Author := selection.username
            Stars := stars }
        { earliestID := earliestID, messages := acc.messages ++ [m] }
      else { earliestID := earliestID, messages := acc.messages }
    else { earliestID := earliestID, messages := acc.messages }

/-- Source `Scraper.scrapePage`: snapshot `MessagesUsed` under the data lock
and the settings under the settings lock, then run the callback over the
selections of the document. -/
def Scraper.scrapePage (lower : String → String) (s : Scraper) (document : Document) :
    Except Stuck ((Int × List Message) × Scraper) := do
  let d ← s.data.Lock
  let messagesUsed := d.state.MessagesUsed
  let d ← d.Unlock
  let st ← s.settings.Lock
  let pollURL := st.Settings.PollURL
  let minStars := st.Settings.MinStars
  let matchingWords := st.Settings.MatchingWords
  let st ← st.Unlock
  let acc := document.blocks.foldl
    (scrapeBlock lower pollURL minStars matchingWords messagesUsed)
    { earliestID := 0, messages := [] }
  return ((acc.earliestID, acc.messages), { data := d, settings := st })

/-! ## The pagination walker -/

/-- The Go errors `scrape` returns: a failed fetch of a page, or a failed
write of the state document. -/
inductive ScrapeError where
  | fetch (url : String)
  | save
deriving DecidableEq, Repr

/-- The collaborators of one scrape: `strings.ToLower`, the document source
`goquery.NewDocument` (`none` is a failed fetch), the clock read at the
commit, and whether the persistence write fails. -/
structure Env where
  lower : String → String
  fetch : String → Option Document
  now : Int
  saveFails : Bool

/-- The selection whose link `scrape` follows after a page: the link after the
current pager entry, or else the link after the previous-page link. -/
def nextSelection (document : Document) : Selection :=
  if document.pagerNext.length = 0 then document.relPrevNext else document.pagerNext

/-- The loop `for path != ""` of `scrape`, with a budget of iterations. -/
def Scraper.scrapeLoop (env : Env) (pollURL : String) :
    Nat → Scraper → String → Int → List Message →
    Except Stuck (Except ScrapeError (Int × List Message) × Scraper)
  | 0, s, path, earliestID, messages =>
    if path = "" then .ok (.ok (earliestID, messages), s) else .error .fuel
  | fuel + 1, s, path, earliestID, messages =>
    if path = "" then .ok (.ok (earliestID, messages), s)
    else
      match env.fetch (pollURL ++ path) with
      | none => .ok (.error (.fetch (pollURL ++ path)), s)
      | some document => do
        let ((newEarliestID, newMessages), s) ← s.scrapePage env.lower document
        let earliestID := if earliestID = 0 then newEarliestID else earliestID
        let messages := messages ++ newMessages
        let selection := nextSelection document
        Scraper.scrapeLoop env pollURL fuel s (AttrOr selection "href" "") earliestID messages

/-- The pruning loop of `scrape`: `i` runs from `len - 1` down to `0` (the
argument is `i + 1`), and an entry below `earliestID` is cut out of the
slice in place. An index out of range is a crash. -/
def pruneLoop (earliestID : Int) : Nat → List Int → Except Stuck (List Int)
  | 0, used => .ok used
  | i + 1, used =>
    match used[i]? with
    | none => .error .crash
    | some v =>
      if v < earliestID then pruneLoop earliestID i (used.take i ++ used.drop (i + 1))
      else pruneLoop earliestID i used

/-- Source `Scraper.scrape`. The result is the Go error (`none` is `nil`) and
the scraper afterwards. -/
def Scraper.scrape (env : Env) (fuel : Nat) (s : Scraper) :
    Except Stuck (Option ScrapeError × Scraper) := do
  let st ← s.settings.Lock
  let pollURL := st.Settings.PollURL
  let pollRoomID := st.Settings.PollRoomID
  let st ← st.Unlock
  let s : Scraper := { data := s.data, settings := st }
  let rootURL := pollURL ++ "/transcript/" ++ toString pollRoomID
  match env.fetch rootURL with
  | none => return (some (.fetch rootURL), s)
  | some document =>
    let path := AttrOr (document.relPrev.take 1) "href" ""
    let (r, s) ← Scraper.scrapeLoop env pollURL fuel s path 0 []
    match r with
    | .error err => return (some err, s)
    | .ok (earliestID, messages) =>
      let d ← s.data.Lock
      let d := { d with state := { d.state with LastScrape := env.now } }
      let d := { d with state := { d.state with EarliestID := earliestID } }
      let d := { d with state := { d.state with Messages := messages } }
      let used ← pruneLoop earliestID d.state.MessagesUsed.length d.state.MessagesUsed
      let d := { d with state := { d.state with MessagesUsed := used } }
      let (err, d) := d.save env.saveFails
      if err then return (some .save, { data := d, settings := s.settings })
      else
        let d ← d.Unlock
        return (none, { data := d, settings := s.settings })

/-! ## The scraper loop -/

/-- Go `time.Minute`, in nanoseconds. -/
def Minute : Int := 60 * 1000000000

/-- The value of a 64-bit signed product or sum after wrap-around. -/
def wrap64 (x : Int) : Int := (x + 2 ^ 63) % 2 ^ 64 - 2 ^ 63

/-- The `Add` of `time.Time`, on instants counted in nanoseconds. -/
def timeAdd (t d : Int) : Int := t + d

/-- The `Sub` of `time.Time`: the difference, clamped to a `Duration`. -/
def timeSub (t u : Int) : Int :=
  if t - u > maxInt then maxInt else if t - u < minInt then minInt else t - u

/-- One turn of the loop of `Scraper.run`, up to the creation of the timer:
the result is the duration the timer is armed with, the outcome of the scrape
if one ran, and the scraper afterwards. `now` is the clock read at the top of
the turn. -/
def Scraper.runTurn (env : Env) (fuel : Nat) (now : Int) (s : Scraper) :
    Except Stuck ((Int × Option (Option ScrapeError)) × Scraper) := do
  let d ← s.data.Lock
  let lastScrape := d.state.LastScrape
  let d ← d.Unlock
  let st ← s.settings.Lock
  let pollFrequency := st.Settings.PollFrequency
  let st ← st.Unlock
  let s : Scraper := { data := d, settings := st }
  let duration := pollFrequency
  let diff := timeSub (timeAdd lastScrape (wrap64 (duration * Minute))) now
  if diff ≤ 0 then
    let (err, s) ← s.scrape env fuel
    let diff := duration
    return ((diff, some err), s)
  else
    return ((diff, none), s)

/-! ## The consumer-facing operations -/

/-- Source `Scraper.Messages`. -/
def Scraper.Messages (s : Scraper) : Except Stuck (List Message × Scraper) := do
  let d ← s.data.Lock
  let r := d.state.Messages
  let d ← d.Unlock
  return (r, { data := d, settings := s.settings })

/-- The loop of `Use`: `i` runs from `len - 1` down to `0` (the argument is
`i + 1`); a message with the id is remembered and cut out of the slice. -/
def useLoop (id : Int) : Nat → List Message → Option Message →
    Except Stuck (List Message × Option Message)
  | 0, messages, message => .ok (messages, message)
  | i + 1, messages, message =>
    match messages[i]? with
    | none => .error .crash
    | some m =>
      if m.ID = id then useLoop id i (messages.take i ++ messages.drop (i + 1)) (some m)
      else useLoop id i messages message

/-- The text of the error `Use` returns for an id that is not a candidate. -/
def invalidMessageIndex : String := "Invalid message index"

/-- Source `Scraper.Use`. The result is the message and the Go error (`none`
is `nil`); the error of `save` is dropped, as in the source. -/
def Scraper.Use (saveFails : Bool) (s : Scraper) (id : Int) :
    Except Stuck ((Option Message × Option String) × Scraper) := do
  let d ← s.data.Lock
  let (messages, message) ← useLoop id d.state.Messages.length d.state.Messages none
  let d := { d with state := { d.state with Messages := messages } }
  match message with
  | none =>
    let d ← d.Unlock
    return ((none, some invalidMessageIndex), { data := d, settings := s.settings })
  | some m =>
    let d := { d with state := { d.state with MessagesUsed := d.state.MessagesUsed ++ [m.ID] } }
    let (_, d) := d.save saveFails
    let d ← d.Unlock
    return ((some m, none), { data := d, settings := s.settings })

/-- Source `Scraper.Settings`. -/
def Scraper.Settings (s : Scraper) : Except Stuck (Tbot.Settings × Scraper) := do
  let st ← s.settings.Lock
  let r := st.Settings
  let st ← st.Unlock
  return (r, { data := s.data, settings := st })

/-- Source `Scraper.SetSettings`. -/
def Scraper.SetSettings (s : Scraper) (r : Tbot.Settings) : Except Stuck Scraper := do
  let st ← s.settings.Lock
  let name := st.name
  let st := { st with Settings := r }
  let st := { st with name := name }
  let st ← st.Unlock
  return { data := s.data, settings := st }

/-! ## The password helper -/

/-- A Go string or byte slice: its bytes. -/
abbrev Bytes := List Nat

/-- The alphabet of `base64.StdEncoding`. -/
def stdAlphabet : List Char :=
  "ABCDEFGHIJKLMNOPQRSTUVWXYZabcdefghijklmnopqrstuvwxyz0123456789+/".data

/-- The byte of the base64 digit with the given value. -/
def encodeDigit (v : Nat) : Nat := (stdAlphabet.getD (v % 64) 'A').toNat

/-- The `EncodeToString` of `base64.StdEncoding`: three bytes become four
digits, and a last group of one or two bytes is padded with `=` (byte 61). -/
def EncodeToString : Bytes → Bytes
  | a :: b :: c :: rest =>
    let v := a % 256 * 65536 + b % 256 * 256 + c % 256
    encodeDigit (v / 262144) :: encodeDigit (v / 4096) :: encodeDigit (v / 64) ::
      encodeDigit v :: EncodeToString rest
  | [a, b] =>
    let v := a % 256 * 65536 + b % 256 * 256
    [encodeDigit (v / 262144), encodeDigit (v / 4096), encodeDigit (v / 64), 61]
  | [a] =>
    let v := a % 256 * 65536
    [encodeDigit (v / 262144), encodeDigit (v / 4096), 61, 61]
  | [] => []

/-- The two functions of `golang.org/x/crypto/bcrypt` the helper calls:
`GenerateFromPassword` (`none` is an error) and `CompareHashAndPassword`
(`true` when it returns `nil`). -/
structure Bcrypt where
  GenerateFromPassword : Bytes → Int → Option Bytes
  CompareHashAndPassword : Bytes → Bytes → Bool

/-- A hash comparison that accepts exactly the password that was hashed: the
hash is the password itself. -/
def exactBcrypt : Bcrypt :=
  { GenerateFromPassword := fun password _ => some password
    CompareHashAndPassword := fun hash password => decide (hash = password) }

/-- The errors of the password helper. -/
inductive AuthError where
  | rand
  | hash
deriving DecidableEq, Repr

/-- A registered user (`UserType` is the field `Type` of the source);
`Created` is in nanoseconds since the epoch. -/
structure User where
  PasswordHash : Bytes
  ChangePassword : Bool
  UserType : String
  Created : Int
deriving DecidableEq, Repr

/-- Source `User.authenticate`. -/
def User.authenticate (bc : Bcrypt) (u : User) (password : Bytes) : Bool :=
  if bc.CompareHashAndPassword u.PasswordHash password = true then true else false

/-- Source `User.setPassword`. -/
def User.setPassword (bc : Bcrypt) (u : User) (password : Bytes) : Option AuthError × User :=
  match bc.GenerateFromPassword password 0 with
  | none => (some .hash, u)
  | some h => (none, { u with PasswordHash := h })

/-- Source `User.resetPassword`; `randRead n` is `rand.Read` on a buffer of
`n` bytes, `none` when it fails. -/
def User.resetPassword (bc : Bcrypt) (randRead : Nat → Option Bytes) (u : User) :
    (Bytes × Option AuthError) × User :=
  match randRead 6 with
  | none => (([], some .rand), u)
  | some b =>
    match u.setPassword bc (EncodeToString b) with
    | (some err, u) => (([], some err), u)
    | (none, u) => ((b, none), { u with ChangePassword := true })

/-! ## Specification-side definitions and fixtures -/

/-- The parsed id of a block. -/
def Block.id (b : Block) : Int := atoi (AttrOr b.link "name" "")

/-- The parsed star count of a block. -/
def Block.starCount (b : Block) : Int := atoi b.stars

/-- The selection rule in the words of the specification: the id is non-zero
and not among the used ids, and the lower-cased body contains the lower-cased
form of a matching word or the star count reaches the threshold. -/
def Selected (lower : String → String) (minStars : Int) (matchingWords : List String)
    (messagesUsed : List Int) (b : Block) : Prop :=
  b.id ≠ 0 ∧ b.id ∉ messagesUsed ∧
    ((∃ w ∈ matchingWords, Contains (lower b.content) (lower w) = true) ∨
      b.starCount ≥ minStars)

instance instDecidableSelected (lower : String → String) (minStars : Int)
    (matchingWords : List String) (messagesUsed : List Int) (b : Block) :
    Decidable (Selected lower minStars matchingWords messagesUsed b) :=
  inferInstanceAs (Decidable (b.id ≠ 0 ∧ b.id ∉ messagesUsed ∧
    ((∃ w ∈ matchingWords, Contains (lower b.content) (lower w) = true) ∨
      b.starCount ≥ minStars)))

/-- The message built from a block. -/
def toMessage (pollURL : String) (b : Block) : Message :=
  { ID := b.id
    URL := pollURL ++ AttrOr b.link "href" ""
    Body := b.content
    Author := b.username
    Stars := b.starCount }

/-- The id of the first block of the list that has one, `0` if none has. -/
def firstID : List Block → Int
  | [] => 0
  | b :: bs => if b.id = 0 then firstID bs else b.id

/-- The messages the specification selects on a page. -/
def selectedMessages (lower : String → String) (st : Settings) (messagesUsed : List Int)
    (document : Document) : List Message :=
  (document.blocks.filter
    (fun b => decide (Selected lower st.MinStars st.MatchingWords messagesUsed b))).map
    (toMessage st.PollURL)

/-- One message of a transcript page as the HTML holds it: its named anchor,
the text of its `.content`, the text of its `.stars .times` and the user name
of the signature next to it. -/
structure MessageElement where
  anchor : Node
  content : String
  stars : String
  username : String
deriving DecidableEq, Repr

/-- A message element with the given anchor name, star text, body and
author. -/
def mkElement (name stars body author : String) : MessageElement :=
  { anchor := { attrs := [("name", name), ("href", "/transcript/message/" ++ name)] }
    content := body
    stars := stars
    username := author }

/-- The one selection `document.Each` visits on a fetched page, the root node,
seen through the queries of the callback: `Find` searches the whole page, so
`link` holds every named anchor and the two texts are the concatenations over
all messages, and the root has no parent, so the user name is empty. -/
def rootBlock (messages : List MessageElement) : Block :=
  { link := messages.map (fun e => e.anchor)
    content := String.join (messages.map (fun e => e.content))
    stars := String.join (messages.map (fun e => e.stars))
    username := "" }

/-- A fetched page of the given messages with the given previous-page link
and following links. -/
def mkPage (messages : List MessageElement) (prev next : List String) : Document :=
  { blocks := [rootBlock messages]
    relPrev := prev.map (fun h => { attrs := [("rel", "prev"), ("href", h)] })
    pagerNext := []
    relPrevNext := next.map (fun h => { attrs := [("href", h)] }) }

/-- The settings of the scenarios of the specification. -/
def exSettings : Settings :=
  { PollURL := "http://chat"
    PollRoomID := 201
    PollFrequency := 5
    MinStars := 5
    MatchingWords := ["hello"] }

/-- A scraper with the scenario settings, the given state and both locks
free. -/
def exScraper (state : ScrapeState) : Scraper :=
  { data := { state := state, name := "scraper_data.json", held := false, document := state }
    settings :=
      { Settings := exSettings, name := "scraper_settings.json", held := false
        document := exSettings } }

/-- An empty scrape state. -/
def emptyState : ScrapeState :=
  { LastScrape := 0, EarliestID := 0, Messages := [], MessagesUsed := [] }

/-- The three scenario messages 105, 106 and 107. -/
def scenarioMessages : List MessageElement :=
  [mkElement "105" "0" "hello" "ann", mkElement "106" "10" "unrelated" "bob",
    mkElement "107" "0" "unrelated" "cy"]

/-- The fetched page of the three scenario messages. -/
def scenarioPage : Document := mkPage scenarioMessages [] []

/-- The address of the root page of a scrape. -/
def rootURL (st : Settings) : String :=
  st.PollURL ++ "/transcript/" ++ toString st.PollRoomID

/-- The link `scrape` reads off the root page. -/
def firstPath (root : Document) : String := AttrOr (root.relPrev.take 1) "href" ""

/-- The link `scrape` follows after a page of the loop. -/
def nextPath (p : Document) : String := AttrOr (nextSelection p) "href" ""

/-- The pages the loop of `scrape` fetches from `path` on: every fetch
succeeds, each page links to the next, and the last page has no link. -/
def Chain (env : Env) (pollURL : String) : String → List Document → Prop
  | path, [] => path = ""
  | path, p :: ps =>
    path ≠ "" ∧ env.fetch (pollURL ++ path) = some p ∧ Chain env pollURL (nextPath p) ps

/-- The first non-zero `earliestID` of a run of pages, `0` if there is none. -/
def walkEarliest : List Document → Int
  | [] => 0
  | p :: ps => if firstID p.blocks = 0 then walkEarliest ps else firstID p.blocks

/-- The output of the page scanner on a page: the messages `scrapePage`
returns, from the scraper `s`. -/
def pageOutput (lower : String → String) (s : Scraper) (document : Document) : List Message :=
  match s.scrapePage lower document with
  | .ok ((_, messages), _) => messages
  | .error _ => []

/-- The state a scrape commits: the clock, the walk's `earliestID` and
messages, and the used ids that are not below `earliestID`. -/
def merged (now earliestID : Int) (messages : List Message) (old : ScrapeState) : ScrapeState :=
  { LastScrape := now
    EarliestID := earliestID
    Messages := messages
    MessagesUsed := old.MessagesUsed.filter (fun v => decide (¬ v < earliestID)) }

/-- The root page of the three-page fixture: one matching message and a
previous-page link. -/
def walkRoot : Document :=
  mkPage [mkElement "105" "0" "hello" "ann"] ["/transcript/201/2016/1/1"] []

/-- The second page of the fixture: one starred message, and a link after its
previous-page link. -/
def walkP1 : Document :=
  mkPage [mkElement "90" "7" "first" "bob"] ["/transcript/201/2015/12/31"]
    ["/transcript/201/2016/1/2"]

/-- The third page of the fixture: one matching message and no further link. -/
def walkP2 : Document :=
  mkPage [mkElement "98" "0" "Hello again" "cy"] ["/transcript/201/2016/1/1"] []

/-- The document source of the fixture. -/
def walkFetch (url : String) : Option Document :=
  if url = "http://chat/transcript/201" then some walkRoot
  else if url = "http://chat/transcript/201/2016/1/1" then some walkP1
  else if url = "http://chat/transcript/201/2016/1/2" then some walkP2
  else none

/-- The collaborators of the fixture; the clock reads 1000 at the commit. -/
def walkEnv (saveFails : Bool) : Env :=
  { lower := asciiLower, fetch := walkFetch, now := 1000, saveFails := saveFails }

/-- The message of the root page of the fixture; the author is empty, as for
every message `scrapePage` builds from a fetched page. -/
def msg105 : Message :=
  { ID := 105, URL := "http://chat/transcript/message/105", Body := "hello", Author := ""
    Stars := 0 }

/-- The message of the second fixture page. -/
def msg90 : Message :=
  { ID := 90, URL := "http://chat/transcript/message/90", Body := "first", Author := ""
    Stars := 7 }

/-- The message of the third fixture page. -/
def msg98 : Message :=
  { ID := 98, URL := "http://chat/transcript/message/98", Body := "Hello again", Author := ""
    Stars := 0 }

/-- The state the fixture scrape commits from the empty state. -/
def walkedState : ScrapeState :=
  { LastScrape := 1000, EarliestID := 90, Messages := [msg90, msg98], MessagesUsed := [] }

/-- A document source whose root page is served and whose other pages fail. -/
def brokenFetch (url : String) : Option Document :=
  if url = "http://chat/transcript/201" then some walkRoot else none

/-- The collaborators of a scrape whose second fetch fails. -/
def brokenEnv : Env :=
  { lower := asciiLower, fetch := brokenFetch, now := 1000, saveFails := false }

/-- A prior state for the pruning scenario: the low-water mark is 100 and
five ids are used. -/
def priorState : ScrapeState :=
  { LastScrape := 0, EarliestID := 100, Messages := [], MessagesUsed := [100, 149, 150, 200, 120] }

/-- The root page of the pruning scenario: no message and one link. -/
def pruneRoot : Document := mkPage [] ["/transcript/201/2016/1/1"] []

/-- The first scanned page of the pruning scenario: its first message is 150,
a used id, and it links to one more page. -/
def prunePage : Document :=
  mkPage [mkElement "150" "0" "hello" "ann", mkElement "200" "9" "starred" "bob"]
    ["/transcript/201/2015/12/31"] ["/transcript/201/2016/1/2"]

/-- The second scanned page of the pruning scenario: the message 210. -/
def prunePage2 : Document :=
  mkPage [mkElement "210" "0" "well hello" "cy"] ["/transcript/201/2016/1/1"] []

/-- The document source of the pruning scenario. -/
def pruneFetch (url : String) : Option Document :=
  if url = "http://chat/transcript/201" then some pruneRoot
  else if url = "http://chat/transcript/201/2016/1/1" then some prunePage
  else if url = "http://chat/transcript/201/2016/1/2" then some prunePage2
  else none

/-- The collaborators of the pruning scenario. -/
def pruneEnv : Env :=
  { lower := asciiLower, fetch := pruneFetch, now := 2000, saveFails := false }

/-- The one message the pruning scenario commits. -/
def msg210 : Message :=
  { ID := 210, URL := "http://chat/transcript/message/210", Body := "well hello", Author := ""
    Stars := 0 }

/-- The state the pruning scenario commits. -/
def prunedState : ScrapeState :=
  { LastScrape := 2000, EarliestID := 150, Messages := [msg210], MessagesUsed := [150, 200] }

/-- A candidate with the given id and body. -/
def mkMessage (id : Int) (body : String) : Message :=
  { ID := id, URL := "http://chat/transcript/message/" ++ toString id, Body := body
    Author := "ann", Stars := 0 }

/-- A state whose candidates hold the id 7 twice. -/
def twiceState : ScrapeState :=
  { LastScrape := 0, EarliestID := 1
    Messages := [mkMessage 7 "first", mkMessage 8 "other", mkMessage 7 "second"]
    MessagesUsed := [3] }

/-- The collaborators of the pruning scenario when the persistence write
fails. -/
def pruneEnvSaveFails : Env :=
  { lower := asciiLower, fetch := pruneFetch, now := 2000, saveFails := true }

/-- The scraper after the pruning scenario when the persistence write fails:
the merged state is in memory, the document is the old one and the lock is
held. -/
def prunedUnsaved : Scraper :=
  { data :=
      { state := prunedState, name := "scraper_data.json", held := true, document := priorState }
    settings := (exScraper priorState).settings }

/-- The scraper after the walk fixture when the persistence write fails. -/
def walkedUnsaved : Scraper :=
  { data :=
      { state := walkedState, name := "scraper_data.json", held := true, document := emptyState }
    settings := (exScraper emptyState).settings }

/-- A settings record that differs from the scenario settings. -/
def newSettings : Settings :=
  { PollURL := "http://chat"
    PollRoomID := 201
    PollFrequency := 10
    MinStars := 3
    MatchingWords := ["ubuntu"] }

/-- The scraper after `SetSettings newSettings` on the scenario scraper. -/
def afterSetSettings : Scraper :=
  { data := (exScraper emptyState).data
    settings :=
      { Settings := newSettings, name := "scraper_settings.json", held := false
        document := exSettings } }

/-- The walk fixture with a clock that reads 400000000001 at the commit. -/
def lateEnv : Env :=
  { lower := asciiLower, fetch := walkFetch, now := 400000000001, saveFails := false }

/-- The broken document source with the same clock. -/
def lateBrokenEnv : Env :=
  { lower := asciiLower, fetch := brokenFetch, now := 400000000001, saveFails := false }

/-- Six bytes of the random source. -/
def sixBytes : Bytes := [1, 2, 3, 4, 5, 6]

/-- A user before a password reset. -/
def oldUser : User :=
  { PasswordHash := [111, 108, 100], ChangePassword := false, UserType := "standard"
    Created := 0 }

/-! ## Lemmas -/

/-- A loop that raises a flag on a hit computes a disjunction. -/
theorem foldl_found {α : Type} (p : α → Prop) [DecidablePred p] (l : List α) (b : Bool) :
    l.foldl (fun found w => if p w then true else found) b = (b || l.any (fun w => decide (p w))) := by
  induction l generalizing b with
  | nil => simp
  | cons a l ih =>
    rw [List.foldl_cons, ih, List.any_cons]
    by_cases h : p a <;> simp [h]

/-- The keyword loop of `scrapePage` finds a match iff a word matches. -/
theorem foundMatch_iff (lower : String → String) (body : String) (words : List String) :
    words.foldl (fun found w => if Contains (lower body) (lower w) = true then true else found) false
      = true ↔ ∃ w ∈ words, Contains (lower body) (lower w) = true := by
  rw [foldl_found (fun w => Contains (lower body) (lower w) = true)]
  simp

/-- The dedup loop of `scrapePage` leaves the flag down iff the id is unused. -/
theorem messageUsed_iff (id : Int) (used : List Int) :
    used.foldl (fun u m => if m = id then true else u) false = false ↔ id ∉ used := by
  rw [foldl_found (fun m => m = id)]
  simp only [Bool.false_or, List.any_eq_false, decide_eq_true_eq]
  exact ⟨fun h hm => h id hm rfl, fun h x hx e => h (e ▸ hx)⟩

/-- The callback of `scrapePage` in terms of the selection rule. -/
theorem scrapeBlock_eq (lower : String → String) (pollURL : String) (minStars : Int)
    (words : List String) (used : List Int) (acc : PageAcc) (b : Block) :
    scrapeBlock lower pollURL minStars words used acc b =
      if b.id = 0 then acc
      else
        { earliestID := if acc.earliestID = 0 then b.id else acc.earliestID
          messages := acc.messages ++
            if Selected lower minStars words used b then [toMessage pollURL b] else [] } := by
  unfold scrapeBlock
  simp only [Block.id, Block.starCount, toMessage, Selected, foundMatch_iff, messageUsed_iff]
  split_ifs <;> simp_all

/-- The `Each` loop of `scrapePage` is a filter followed by a map. -/
theorem foldl_scrapeBlock (lower : String → String) (pollURL : String) (minStars : Int)
    (words : List String) (used : List Int) (blocks : List Block) (acc : PageAcc) :
    blocks.foldl (scrapeBlock lower pollURL minStars words used) acc =
      { earliestID := if acc.earliestID = 0 then firstID blocks else acc.earliestID
        messages := acc.messages ++
          (blocks.filter (fun b => decide (Selected lower minStars words used b))).map
            (toMessage pollURL) } := by
  induction blocks generalizing acc with
  | nil =>
    cases acc with
    | mk e ms => by_cases h : e = 0 <;> simp [firstID, h]
  | cons b bs ih =>
    rw [List.foldl_cons, ih, scrapeBlock_eq]
    by_cases h0 : b.id = 0
    · have hn : ¬ Selected lower minStars words used b := fun h => h.1 h0
      simp [h0, firstID, hn]
    · by_cases hs : Selected lower minStars words used b
      · by_cases ha : acc.earliestID = 0 <;> simp [h0, firstID, hs, ha]
      · by_cases ha : acc.earliestID = 0 <;> simp [h0, firstID, hs, ha]

/-- With both locks free `scrapePage` returns and leaves the scraper as it was. -/
theorem scrapePage_eq (lower : String → String) (s : Scraper) (document : Document)
    (hd : s.data.held = false) (hs : s.settings.held = false) :
    s.scrapePage lower document =
      .ok ((firstID document.blocks,
        selectedMessages lower s.settings.Settings s.data.state.MessagesUsed document), s) := by
  obtain ⟨⟨st, dn, dh, dd⟩, ⟨ss, sn, sh, sd⟩⟩ := s
  simp only at hd hs
  subst hd hs
  simp [Scraper.scrapePage, data.Lock, data.Unlock, settings.Lock, settings.Unlock,
    foldl_scrapeBlock, selectedMessages, bind, Except.bind, pure, Except.pure]


/-- Cutting the entry at `k` keeps the first `k` entries. -/
theorem take_cut {α : Type} (l : List α) (k : Nat) (hk : k < l.length) :
    (l.take k ++ l.drop (k + 1)).take k = l.take k := by
  rw [List.take_append_of_le_length (by simp; omega)]
  simp

/-- Cutting the entry at `k` leaves the entries after it from `k` on. -/
theorem drop_cut {α : Type} (l : List α) (k : Nat) (hk : k < l.length) :
    (l.take k ++ l.drop (k + 1)).drop k = l.drop (k + 1) := by
  have h : (l.take k).length = k := by simp; omega
  rw [List.drop_append_eq_append_drop, h]
  simp [List.drop_eq_nil_of_le, h]

/-- The first `k + 1` entries are the first `k` and the entry at `k`. -/
theorem take_step {α : Type} (l : List α) (k : Nat) (hk : k < l.length) :
    l.take (k + 1) = l.take k ++ [l[k]] := by
  rw [List.take_succ]
  simp [List.getElem?_eq_getElem hk]

/-- The pruning loop, started at index `k - 1`, filters the first `k` entries. -/
theorem pruneLoop_eq (e : Int) (k : Nat) (used : List Int) (hk : k ≤ used.length) :
    pruneLoop e k used =
      .ok ((used.take k).filter (fun v => decide (¬ v < e)) ++ used.drop k) := by
  induction k generalizing used with
  | zero => simp [pruneLoop]
  | succ k ih =>
    have hk' : k < used.length := hk
    rw [pruneLoop, List.getElem?_eq_getElem hk']
    simp only
    by_cases hv : used[k] < e
    · rw [if_pos hv, ih _ (by simp; omega), take_cut _ _ hk', drop_cut _ _ hk', take_step _ _ hk',
        List.filter_append]
      simp only [List.filter_cons, List.filter_nil, hv, not_true_eq_false, decide_False,
        Bool.false_eq_true, if_false, List.append_nil]
    · rw [if_neg hv, ih _ (by omega), take_step _ _ hk', List.drop_eq_getElem_cons hk',
        List.filter_append]
      simp only [List.filter_cons, List.filter_nil, hv, not_false_eq_true, decide_True,
        if_true, List.append_assoc, List.singleton_append]

/-- The pruning loop over the whole slice is a filter; it never crashes. -/
theorem pruneLoop_all (e : Int) (used : List Int) :
    pruneLoop e used.length used = .ok (used.filter (fun v => decide (¬ v < e))) := by
  rw [pruneLoop_eq e used.length used (le_refl _)]
  simp

/-- A selected message has an unused id. -/
theorem mem_selectedMessages (lower : String → String) (st : Settings) (used : List Int)
    (document : Document) (m : Message) (h : m ∈ selectedMessages lower st used document) :
    m.ID ∉ used := by
  simp only [selectedMessages, List.mem_map, List.mem_filter, decide_eq_true_eq] at h
  obtain ⟨b, ⟨_, hb⟩, rfl⟩ := h
  exact hb.2.1

/-- When `scrapePage` returns, both locks were free and the scraper is as it was. -/
theorem scrapePage_inv (lower : String → String) (s : Scraper) (document : Document)
    (x : Int × List Message) (s1 : Scraper) (h : s.scrapePage lower document = .ok (x, s1)) :
    s.data.held = false ∧ s.settings.held = false ∧ s1 = s ∧
      x = (firstID document.blocks,
        selectedMessages lower s.settings.Settings s.data.state.MessagesUsed document) := by
  by_cases hd : s.data.held = false
  · by_cases hs : s.settings.held = false
    · rw [scrapePage_eq lower s document hd hs] at h
      simp only [Except.ok.injEq, Prod.mk.injEq] at h
      exact ⟨hd, hs, h.2.symm, h.1.symm⟩
    · simp only [Bool.not_eq_false] at hs
      obtain ⟨⟨st, dn, dh, dd⟩, ⟨ss, sn, sh, sd⟩⟩ := s
      simp only at hd hs
      subst hd hs
      simp [Scraper.scrapePage, data.Lock, data.Unlock, settings.Lock, bind, Except.bind] at h
  · simp only [Bool.not_eq_false] at hd
    simp [Scraper.scrapePage, data.Lock, hd, bind, Except.bind] at h

/-- The output of the scanner is the selection of the specification. -/
theorem pageOutput_eq (lower : String → String) (s : Scraper) (document : Document)
    (hd : s.data.held = false) (hs : s.settings.held = false) :
    pageOutput lower s document =
      selectedMessages lower s.settings.Settings s.data.state.MessagesUsed document := by
  simp [pageOutput, scrapePage_eq lower s document hd hs]

/-- Along a chain of pages the loop of `scrape` returns, given fuel for every page. -/
theorem scrapeLoop_chain (env : Env) (pollURL : String) (s : Scraper)
    (hd : s.data.held = false) (hs : s.settings.held = false) (pages : List Document) :
    ∀ (fuel : Nat) (path : String) (e : Int) (ms : List Message),
      Chain env pollURL path pages → pages.length ≤ fuel →
      Scraper.scrapeLoop env pollURL fuel s path e ms =
        .ok (.ok (if e = 0 then walkEarliest pages else e,
          ms ++ (pages.map (pageOutput env.lower s)).flatten), s) := by
  induction pages with
  | nil =>
    intro fuel path e ms hc _
    simp only [Chain] at hc
    subst hc
    cases fuel <;> by_cases he : e = 0 <;> simp [Scraper.scrapeLoop, walkEarliest, he]
  | cons p ps ih =>
    intro fuel path e ms hc hf
    obtain ⟨hne, hfetch, hrest⟩ := hc
    cases fuel with
    | zero => simp at hf
    | succ f =>
      have hf' : ps.length ≤ f := by simpa using hf
      rw [Scraper.scrapeLoop, if_neg hne, hfetch]
      simp only [scrapePage_eq env.lower s p hd hs, bind, Except.bind]
      have := ih f (nextPath p) (if e = 0 then firstID p.blocks else e)
        (ms ++ selectedMessages env.lower s.settings.Settings s.data.state.MessagesUsed p)
        hrest hf'
      simp only [nextPath] at this
      rw [this]
      simp only [List.map_cons, List.flatten_cons, pageOutput_eq env.lower s p hd hs]
      by_cases he : e = 0 <;> by_cases h1 : firstID p.blocks = 0 <;>
        simp [walkEarliest, he, h1]

/-- Whatever the loop of `scrape` returns, the scraper is as it was, an error is a
fetch error, and every new message has an unused id. -/
theorem scrapeLoop_inv (env : Env) (pollURL : String) :
    ∀ (fuel : Nat) (s : Scraper) (path : String) (e : Int) (ms : List Message)
      (r : Except ScrapeError (Int × List Message)) (s1 : Scraper),
      Scraper.scrapeLoop env pollURL fuel s path e ms = .ok (r, s1) →
      s1 = s ∧
        match r with
        | .error err => ∃ u, err = .fetch u
        | .ok (_, ms1) => ∀ m ∈ ms1, m ∈ ms ∨ m.ID ∉ s.data.state.MessagesUsed := by
  intro fuel
  induction fuel with
  | zero =>
    intro s path e ms r s1 h
    by_cases hp : path = ""
    · simp only [Scraper.scrapeLoop, hp, if_true, Except.ok.injEq, Prod.mk.injEq] at h
      obtain ⟨rfl, rfl⟩ := h
      exact ⟨rfl, fun m hm => Or.inl hm⟩
    · simp [Scraper.scrapeLoop, hp] at h
  | succ f ih =>
    intro s path e ms r s1 h
    by_cases hp : path = ""
    · simp only [Scraper.scrapeLoop, hp, if_true, Except.ok.injEq, Prod.mk.injEq] at h
      obtain ⟨rfl, rfl⟩ := h
      exact ⟨rfl, fun m hm => Or.inl hm⟩
    · rw [Scraper.scrapeLoop, if_neg hp] at h
      cases hfetch : env.fetch (pollURL ++ path) with
      | none =>
        simp only [hfetch, Except.ok.injEq, Prod.mk.injEq] at h
        obtain ⟨rfl, rfl⟩ := h
        exact ⟨rfl, _, rfl⟩
      | some document =>
        simp only [hfetch] at h
        cases hpage : s.scrapePage env.lower document with
        | error err => simp [hpage, bind, Except.bind] at h
        | ok v =>
          obtain ⟨x, s2⟩ := v
          obtain ⟨_, _, rfl, rfl⟩ := scrapePage_inv env.lower s document x s2 hpage
          simp only [hpage, bind, Except.bind] at h
          obtain ⟨rfl, hr⟩ := ih _ _ _ _ _ _ h
          refine ⟨rfl, ?_⟩
          cases r with
          | error err => exact hr
          | ok v =>
            obtain ⟨e1, ms1⟩ := v
            intro m hm
            rcases hr m hm with h1 | h1
            · rcases List.mem_append.mp h1 with h2 | h2
              · exact Or.inl h2
              · exact Or.inr (mem_selectedMessages _ _ _ _ _ h2)
            · exact Or.inr h1

/-- The cases of `scrape` once the settings lock is free. -/
theorem scrape_unfold (env : Env) (fuel : Nat) (s : Scraper) (hs : s.settings.held = false) :
    s.scrape env fuel =
      match env.fetch (rootURL s.settings.Settings) with
      | none => .ok (some (.fetch (rootURL s.settings.Settings)), s)
      | some root =>
        match Scraper.scrapeLoop env s.settings.Settings.PollURL fuel s (firstPath root) 0 [] with
        | .error st => .error st
        | .ok (.error err, s1) => .ok (some err, s1)
        | .ok (.ok (e, ms), s1) =>
          if s1.data.held = true then .error .blocked
          else if env.saveFails = true then
            .ok (some .save,
              { data :=
                  { state := merged env.now e ms s1.data.state, name := s1.data.name
                    held := true, document := s1.data.document }
                settings := s1.settings })
          else
            .ok (none,
              { data :=
                  { state := merged env.now e ms s1.data.state, name := s1.data.name
                    held := false, document := merged env.now e ms s1.data.state }
                settings := s1.settings }) := by
  obtain ⟨d, ⟨ss, sn, sh, sd⟩⟩ := s
  simp only at hs
  subst hs
  simp only [Scraper.scrape, settings.Lock, settings.Unlock, bind, Except.bind, pure,
    Except.pure, rootURL, firstPath, Bool.false_eq_true, if_false, if_true]
  cases env.fetch (ss.PollURL ++ "/transcript/" ++ toString ss.PollRoomID) with
  | none => rfl
  | some root =>
    simp only
    cases Scraper.scrapeLoop env ss.PollURL fuel
        { data := d, settings := { Settings := ss, name := sn, held := false, document := sd } }
        (AttrOr (List.take 1 root.relPrev) "href" "") 0 [] with
    | error st => rfl
    | ok v =>
      obtain ⟨r, s1⟩ := v
      cases r with
      | error err => rfl
      | ok w =>
        obtain ⟨e, ms⟩ := w
        obtain ⟨⟨st1, dn1, dh1, dd1⟩, ss1⟩ := s1
        cases dh1 <;> cases hsf : env.saveFails <;>
          simp [data.Lock, data.Unlock, data.save, pruneLoop_all, merged, hsf]

/-- With the settings lock held `scrape` never returns. -/
theorem scrape_blocked (env : Env) (fuel : Nat) (s : Scraper) (hs : s.settings.held = true) :
    s.scrape env fuel = .error .blocked := by
  simp [Scraper.scrape, settings.Lock, hs, bind, Except.bind]

/-- A scrape that succeeds commits a merged state whose messages have unused ids. -/
theorem scrape_ok_inv (env : Env) (fuel : Nat) (s s1 : Scraper)
    (h : s.scrape env fuel = .ok (none, s1)) :
    ∃ e ms, (∀ m ∈ ms, m.ID ∉ s.data.state.MessagesUsed) ∧
      s1 = { data :=
               { state := merged env.now e ms s.data.state, name := s.data.name
                 held := false, document := merged env.now e ms s.data.state }
             settings := s.settings } := by
  cases hs : s.settings.held with
  | true => rw [scrape_blocked env fuel s hs] at h; cases h
  | false =>
    rw [scrape_unfold env fuel s hs] at h
    cases hf : env.fetch (rootURL s.settings.Settings) with
    | none => simp [hf] at h
    | some root =>
      simp only [hf] at h
      cases hl : Scraper.scrapeLoop env s.settings.Settings.PollURL fuel s (firstPath root) 0 [] with
      | error st => simp [hl] at h
      | ok v =>
        obtain ⟨r, s2⟩ := v
        obtain ⟨rfl, hr⟩ := scrapeLoop_inv env _ _ _ _ _ _ _ _ hl
        cases r with
        | error err => simp [hl] at h
        | ok w =>
          obtain ⟨e, ms⟩ := w
          simp only [hl] at h
          refine ⟨e, ms, ?_, ?_⟩
          · intro m hm
            rcases hr m hm with h1 | h1
            · cases h1
            · exact h1
          · cases hdh : s2.data.held <;> cases hsf : env.saveFails <;>
              simp [hdh, hsf] at h
            exact h.symm

/-- A scrape that returns a fetch error leaves the scraper as it was. -/
theorem scrape_fetch_inv (env : Env) (fuel : Nat) (s s1 : Scraper) (u : String)
    (h : s.scrape env fuel = .ok (some (.fetch u), s1)) : s1 = s := by
  cases hs : s.settings.held with
  | true => rw [scrape_blocked env fuel s hs] at h; cases h
  | false =>
    rw [scrape_unfold env fuel s hs] at h
    cases hf : env.fetch (rootURL s.settings.Settings) with
    | none =>
      simp only [hf, Except.ok.injEq, Prod.mk.injEq] at h
      exact h.2.symm
    | some root =>
      simp only [hf] at h
      cases hl : Scraper.scrapeLoop env s.settings.Settings.PollURL fuel s (firstPath root) 0 [] with
      | error st => simp [hl] at h
      | ok v =>
        obtain ⟨r, s2⟩ := v
        obtain ⟨rfl, _⟩ := scrapeLoop_inv env _ _ _ _ _ _ _ _ hl
        cases r with
        | error err =>
          simp only [hl, Except.ok.injEq, Prod.mk.injEq] at h
          exact h.2.symm
        | ok w =>
          obtain ⟨e, ms⟩ := w
          simp only [hl] at h
          cases hdh : s2.data.held <;> cases hsf : env.saveFails <;>
            simp [hdh, hsf] at h

/-- The loop of `Use`, started at index `k - 1`, removes the messages with the id
among the first `k` and remembers the first of them. -/
theorem useLoop_eq (id : Int) (k : Nat) (ms : List Message) (msg : Option Message)
    (hk : k ≤ ms.length) :
    useLoop id k ms msg =
      .ok ((ms.take k).filter (fun m => decide (m.ID ≠ id)) ++ ms.drop k,
        ((ms.take k).find? (fun m => decide (m.ID = id))).or msg) := by
  induction k generalizing ms msg with
  | zero => simp [useLoop]
  | succ k ih =>
    have hk' : k < ms.length := hk
    rw [useLoop, List.getElem?_eq_getElem hk']
    simp only
    by_cases hv : ms[k].ID = id
    · rw [if_pos hv, ih _ _ (by simp; omega), take_cut _ _ hk', drop_cut _ _ hk',
        take_step _ _ hk', List.filter_append, List.find?_append]
      simp only [List.filter_cons, List.filter_nil, hv, ne_eq, not_true_eq_false, decide_False,
        Bool.false_eq_true, if_false, List.append_nil, List.find?_cons, decide_True]
      cases List.find? (fun m => decide (m.ID = id)) (List.take k ms) <;> simp
    · rw [if_neg hv, ih _ _ (by omega), take_step _ _ hk', List.drop_eq_getElem_cons hk',
        List.filter_append, List.find?_append]
      simp only [List.filter_cons, List.filter_nil, hv, ne_eq, not_false_eq_true, decide_True,
        if_true, List.append_assoc, List.singleton_append, List.find?_cons, decide_False,
        List.find?_nil, Option.or_none]

/-- The loop of `Use` over the whole slice; it never crashes. -/
theorem useLoop_all (id : Int) (ms : List Message) :
    useLoop id ms.length ms none =
      .ok (ms.filter (fun m => decide (m.ID ≠ id)), ms.find? (fun m => decide (m.ID = id))) := by
  rw [useLoop_eq id ms.length ms none (le_refl _)]
  simp

/-- The result of `Use` when a candidate has the id. -/
theorem Use_found (saveFails : Bool) (s : Scraper) (id : Int) (m : Message)
    (hd : s.data.held = false)
    (hm : s.data.state.Messages.find? (fun m => decide (m.ID = id)) = some m) :
    s.Use saveFails id =
      .ok ((some m, none),
        { data :=
            { state :=
                { s.data.state with
                  Messages := s.data.state.Messages.filter (fun m => decide (m.ID ≠ id))
                  MessagesUsed := s.data.state.MessagesUsed ++ [m.ID] }
              name := s.data.name
              held := false
              document :=
                if saveFails = true then s.data.document
                else
                  { s.data.state with
                    Messages := s.data.state.Messages.filter (fun m => decide (m.ID ≠ id))
                    MessagesUsed := s.data.state.MessagesUsed ++ [m.ID] } }
          settings := s.settings }) := by
  obtain ⟨⟨st, dn, dh, dd⟩, ss⟩ := s
  simp only at hd hm
  subst hd
  cases saveFails <;>
    simp [Scraper.Use, data.Lock, data.Unlock, data.save, useLoop_all, hm, bind, Except.bind,
      pure, Except.pure]

/-- The result of `Use` when no candidate has the id. -/
theorem Use_missing (saveFails : Bool) (s : Scraper) (id : Int)
    (hd : s.data.held = false)
    (hm : ∀ m ∈ s.data.state.Messages, m.ID ≠ id) :
    s.Use saveFails id = .ok ((none, some invalidMessageIndex), s) := by
  obtain ⟨⟨st, dn, dh, dd⟩, ss⟩ := s
  simp only at hd hm
  subst hd
  have hfind : st.Messages.find? (fun m => decide (m.ID = id)) = none := by
    simp only [List.find?_eq_none, decide_eq_true_eq]
    exact hm
  have hfilter : st.Messages.filter (fun m => decide (m.ID ≠ id)) = st.Messages := by
    rw [List.filter_eq_self]
    intro m hmem
    simpa using hm m hmem
  have hfilter2 : st.Messages.filter (fun m => !decide (m.ID = id)) = st.Messages := by
    simpa using hfilter
  simp [Scraper.Use, data.Lock, data.Unlock, useLoop_all, hfind, hfilter2, bind, Except.bind,
    pure, Except.pure]

/-- With the data lock free `Messages` returns the candidates. -/
theorem Messages_eq (s : Scraper) (hd : s.data.held = false) :
    s.Messages = .ok (s.data.state.Messages, s) := by
  obtain ⟨⟨st, dn, dh, dd⟩, ss⟩ := s
  simp only at hd
  subst hd
  simp [Scraper.Messages, data.Lock, data.Unlock, bind, Except.bind, pure, Except.pure]

/-! ## The claims -/

/-- C1 fails in the code: `document.Each` runs on the selection of the
`Document`, which holds the root node only, so the callback runs once over
the whole page. On the fetched page of the messages 105 (0 stars, "hello"),
106 (10 stars, "unrelated") and 107 (0 stars, "unrelated"), with
`MatchingWords = ["hello"]` and `MinStars = 5`, `scrapePage` returns one
message made of the first anchor and the concatenated texts, not the
messages 105 and 106. -/
theorem scrapePage_merges_page :
    scenarioPage.blocks =
        [{ link :=
             [{ attrs := [("name", "105"), ("href", "/transcript/message/105")] },
              { attrs := [("name", "106"), ("href", "/transcript/message/106")] },
              { attrs := [("name", "107"), ("href", "/transcript/message/107")] }]
           content := "hellounrelatedunrelated"
           stars := "0100"
           username := "" }] ∧
      (exScraper emptyState).scrapePage asciiLower scenarioPage =
        .ok ((105,
          [{ ID := 105, URL := "http://chat/transcript/message/105"
             Body := "hellounrelatedunrelated", Author := "", Stars := 100 }]),
          exScraper emptyState) := by
  decide

/-- C2, as stated, fails on the three-page fixture: every fetch succeeds and
the scrape commits the messages of the two pages after the root, 90 and 98,
while the scanner's output on the root page, message 105, is not among them. -/
theorem scrape_omits_root_page :
    walkFetch (rootURL exSettings) = some walkRoot ∧
      walkFetch (exSettings.PollURL ++ firstPath walkRoot) = some walkP1 ∧
      walkFetch (exSettings.PollURL ++ nextPath walkP1) = some walkP2 ∧
      nextPath walkP2 = "" ∧
      (exScraper emptyState).scrape (walkEnv false) 2 = .ok (none, exScraper walkedState) ∧
      walkedState.Messages = [msg90, msg98] ∧
      pageOutput asciiLower (exScraper emptyState) walkRoot = [msg105] ∧
      walkedState.Messages ≠
        ([walkRoot, walkP1, walkP2].map (pageOutput asciiLower (exScraper emptyState))).flatten := by
  decide

/-- C2, amended: when the root page is fetched and the pages after it form a
finite chain whose fetches all succeed, `scrape` returns (given one unit of
fuel per page of the chain) and the `Messages` it commits are the
concatenation, in fetch order, of the scanner's output for the pages after
the root; the root page itself is not scanned. -/
theorem scrape_concat (env : Env) (fuel : Nat) (s : Scraper) (root : Document)
    (pages : List Document)
    (hd : s.data.held = false) (hs : s.settings.held = false)
    (hroot : env.fetch (rootURL s.settings.Settings) = some root)
    (hchain : Chain env s.settings.Settings.PollURL (firstPath root) pages)
    (hfuel : pages.length ≤ fuel) :
    ∃ s1, s.scrape env fuel = .ok (if env.saveFails = true then some .save else none, s1) ∧
      s1.data.state.Messages = (pages.map (pageOutput env.lower s)).flatten := by
  rw [scrape_unfold env fuel s hs, hroot]
  simp only [scrapeLoop_chain env _ s hd hs pages fuel _ 0 [] hchain hfuel, hd]
  cases hsf : env.saveFails <;> simp [merged]

/-- Witness of C2 amended: the three-page fixture. -/
theorem scrape_concat_witness :
    ∃ s1, (exScraper emptyState).scrape (walkEnv false) 2 = .ok (none, s1) ∧
      s1.data.state.Messages =
        ([walkP1, walkP2].map (pageOutput asciiLower (exScraper emptyState))).flatten :=
  scrape_concat (walkEnv false) 2 (exScraper emptyState) walkRoot [walkP1, walkP2] rfl rfl
    (by decide) (by simp only [Chain]; decide) (by decide)

/-- C3: after a scrape that succeeds, no committed message has an id that
occurs in `MessagesUsed`. -/
theorem scrape_messages_unused (env : Env) (fuel : Nat) (s s1 : Scraper)
    (h : s.scrape env fuel = .ok (none, s1)) :
    ∀ m ∈ s1.data.state.Messages, m.ID ∉ s1.data.state.MessagesUsed := by
  obtain ⟨e, ms, hms, rfl⟩ := scrape_ok_inv env fuel s s1 h
  intro m hm hmem
  simp only [merged, List.mem_filter] at hm hmem
  exact hms m hm hmem.1

/-- Witness of C3: the pruning scenario, where the first scanned page yields
the used id 150 and is dropped, and only message 210 is committed. -/
theorem scrape_messages_unused_witness :
    (exScraper priorState).scrape pruneEnv 2 = .ok (none, exScraper prunedState) ∧
      ∀ m ∈ (exScraper prunedState).data.state.Messages,
        m.ID ∉ (exScraper prunedState).data.state.MessagesUsed :=
  ⟨by decide, scrape_messages_unused pruneEnv 2 (exScraper priorState) (exScraper prunedState)
    (by decide)⟩

/-- C4: after a scrape that succeeds, `MessagesUsed` is the prior list with
exactly the entries below the committed `EarliestID` removed, the others in
their order, so every remaining id is at least `EarliestID`. -/
theorem scrape_prunes_used (env : Env) (fuel : Nat) (s s1 : Scraper)
    (h : s.scrape env fuel = .ok (none, s1)) :
    s1.data.state.MessagesUsed =
        s.data.state.MessagesUsed.filter (fun v => decide (¬ v < s1.data.state.EarliestID)) ∧
      ∀ v ∈ s1.data.state.MessagesUsed, v ≥ s1.data.state.EarliestID := by
  obtain ⟨e, ms, _, rfl⟩ := scrape_ok_inv env fuel s s1 h
  refine ⟨rfl, ?_⟩
  intro v hv
  simp only [merged, List.mem_filter, decide_eq_true_eq, not_lt] at hv
  exact hv.2

/-- Witness of C4: the low-water mark moves from 100 to 150 and, of the used
ids 100, 149, 150, 200 and 120, exactly 150 and 200 remain. -/
theorem scrape_prunes_used_witness :
    (exScraper priorState).scrape pruneEnv 2 = .ok (none, exScraper prunedState) ∧
      (exScraper prunedState).data.state.MessagesUsed =
        [100, 149, 150, 200, 120].filter (fun v => decide (¬ v < (150 : Int))) ∧
      ∀ v ∈ (exScraper prunedState).data.state.MessagesUsed, v ≥ (150 : Int) :=
  ⟨by decide, scrape_prunes_used pruneEnv 2 (exScraper priorState) (exScraper prunedState)
    (by decide)⟩

/-- C5: with the data lock free `Use(id)` returns; if it returns no error
then `Messages()` holds no message with that id afterwards, the id has been
appended to `MessagesUsed`, and a second `Use(id)` returns the not-found
error; and if no candidate has the id, it returns the not-found error and
leaves the scraper as it was. -/
theorem Use_once (saveFails : Bool) (s : Scraper) (id : Int) (hd : s.data.held = false) :
    ∃ r s1, s.Use saveFails id = .ok (r, s1) ∧
      (r.2 = none →
        (∃ ms, s1.Messages = .ok (ms, s1) ∧ ∀ x ∈ ms, x.ID ≠ id) ∧
        s1.data.state.MessagesUsed = s.data.state.MessagesUsed ++ [id] ∧
        ∀ saveFails2, ∃ s2, s1.Use saveFails2 id = .ok ((none, some invalidMessageIndex), s2)) ∧
      ((∀ x ∈ s.data.state.Messages, x.ID ≠ id) →
        r = (none, some invalidMessageIndex) ∧ s1 = s) := by
  cases hfind : s.data.state.Messages.find? (fun m => decide (m.ID = id)) with
  | none =>
    have hm : ∀ m ∈ s.data.state.Messages, m.ID ≠ id := by
      simpa using hfind
    refine ⟨_, _, Use_missing saveFails s id hd hm, ?_, fun _ => ⟨rfl, rfl⟩⟩
    intro h
    simp at h
  | some m =>
    have hid : m.ID = id := by simpa using List.find?_some hfind
    have hmem : m ∈ s.data.state.Messages := List.mem_of_find?_eq_some hfind
    refine ⟨_, _, Use_found saveFails s id m hd hfind, fun _ => ⟨?_, ?_, ?_⟩, ?_⟩
    · refine ⟨_, Messages_eq _ rfl, ?_⟩
      intro x hx
      simpa using (List.mem_filter.mp hx).2
    · simp [hid]
    · intro saveFails2
      refine ⟨_, Use_missing saveFails2 _ id rfl ?_⟩
      intro x hx
      simpa using (List.mem_filter.mp hx).2
    · intro h
      exact absurd hid (h m hmem)

/-- Witness of C5: the id 7 occurs twice among the candidates; one `Use(7)`
removes both and appends 7 to the used ids once. -/
theorem Use_once_witness :
    (exScraper twiceState).Use false 7 =
        .ok ((some (mkMessage 7 "first"), none),
          exScraper { twiceState with Messages := [mkMessage 8 "other"], MessagesUsed := [3, 7] }) ∧
      ∃ r s1, (exScraper twiceState).Use false 7 = .ok (r, s1) ∧
        (r.2 = none →
          (∃ ms, s1.Messages = .ok (ms, s1) ∧ ∀ x ∈ ms, x.ID ≠ 7) ∧
          s1.data.state.MessagesUsed = (exScraper twiceState).data.state.MessagesUsed ++ [7] ∧
          ∀ saveFails2, ∃ s2, s1.Use saveFails2 7 = .ok ((none, some invalidMessageIndex), s2)) ∧
        ((∀ x ∈ (exScraper twiceState).data.state.Messages, x.ID ≠ 7) →
          r = (none, some invalidMessageIndex) ∧ s1 = exScraper twiceState) :=
  ⟨by decide, Use_once false (exScraper twiceState) 7 rfl⟩

/-- C6, as stated, fails when the persistence write fails: `scrape` returns
the error of the write and the in-memory state is the merged one, not the
prior one. -/
theorem scrape_save_failure_changes_state :
    (exScraper priorState).scrape pruneEnvSaveFails 2 = .ok (some .save, prunedUnsaved) ∧
      prunedUnsaved.data.state = prunedState ∧
      prunedUnsaved.data.state ≠ (exScraper priorState).data.state := by
  decide

/-- C6, amended: if `scrape` returns the error of a failed page fetch, the
scraper, and with it the in-memory `ScrapeState`, is what it was before the
scrape started. -/
theorem scrape_fetch_failure_keeps_state (env : Env) (fuel : Nat) (s s1 : Scraper) (u : String)
    (h : s.scrape env fuel = .ok (some (.fetch u), s1)) :
    s1.data.state = s.data.state ∧ s1 = s := by
  have := scrape_fetch_inv env fuel s s1 u h
  subst this
  exact ⟨rfl, rfl⟩

/-- Witness of C6 amended: the root page is fetched and the fetch of the page
it links to fails. -/
theorem scrape_fetch_failure_keeps_state_witness :
    (exScraper priorState).scrape brokenEnv 2 =
        .ok (some (.fetch "http://chat/transcript/201/2016/1/1"), exScraper priorState) ∧
      (exScraper priorState).data.state = (exScraper priorState).data.state ∧
      exScraper priorState = exScraper priorState :=
  ⟨by decide, scrape_fetch_failure_keeps_state brokenEnv 2 (exScraper priorState)
    (exScraper priorState) "http://chat/transcript/201/2016/1/1" (by decide)⟩

/-- C7 fails in the code: when the persistence write fails, `scrape` returns
the error with the `ScrapeState` lock still held, and every later `Messages`,
`Use` and `scrape` waits on it for ever. -/
theorem scrape_save_failure_keeps_lock :
    (exScraper emptyState).data.held = false ∧
      (exScraper emptyState).scrape (walkEnv true) 2 = .ok (some .save, walkedUnsaved) ∧
      walkedUnsaved.data.held = true ∧
      walkedUnsaved.Messages = .error .blocked ∧
      walkedUnsaved.Use false 90 = .error .blocked ∧
      walkedUnsaved.scrape (walkEnv false) 2 = .error .blocked := by
  decide

/-- C8 fails in the code: `SetSettings` returns, `Settings` returns the new
record and the storage name is kept, but the settings document still holds
the old record. -/
theorem SetSettings_not_persisted :
    (exScraper emptyState).SetSettings newSettings = .ok afterSetSettings ∧
      afterSetSettings.Settings = .ok (newSettings, afterSetSettings) ∧
      afterSetSettings.settings.name = (exScraper emptyState).settings.name ∧
      afterSetSettings.settings.document = exSettings ∧
      afterSetSettings.settings.document ≠ newSettings := by
  decide

/-- C9 fails in the code: with `PollFrequency = 5`, a turn that finds the
scrape not yet due waits the remaining time, but a turn that scrapes arms the
timer with 5 nanoseconds, whether the scrape fails or succeeds, and not with
5 minutes (300000000000 nanoseconds). -/
theorem run_waits_nanoseconds_after_scrape :
    (exScraper emptyState).runTurn lateEnv 2 100 =
        .ok ((299999999900, none), exScraper emptyState) ∧
      (exScraper emptyState).runTurn lateBrokenEnv 2 400000000000 =
        .ok ((5, some (some (.fetch "http://chat/transcript/201/2016/1/1"))),
          exScraper emptyState) ∧
      (exScraper emptyState).runTurn lateEnv 2 400000000000 =
        .ok ((5, some none), exScraper { walkedState with LastScrape := 400000000001 }) ∧
      exSettings.PollFrequency * Minute = 300000000000 := by
  decide

/-- C10 fails in the code: for the random bytes 1..6 `resetPassword` stores
the hash of their base64 encoding `AQIDBAUG` and sets `ChangePassword`, but
returns the six raw bytes; under a hash comparison that accepts exactly the
hashed password, `authenticate` rejects the returned plaintext and accepts
the encoding. When the random source fails the user is unchanged. -/
theorem resetPassword_returns_raw_bytes :
    User.resetPassword exactBcrypt (fun _ => some sixBytes) oldUser =
        ((sixBytes, none),
          { oldUser with PasswordHash := EncodeToString sixBytes, ChangePassword := true }) ∧
      EncodeToString sixBytes = [65, 81, 73, 68, 66, 65, 85, 71] ∧
      sixBytes ≠ EncodeToString sixBytes ∧
      (User.resetPassword exactBcrypt (fun _ => some sixBytes) oldUser).2.authenticate
        exactBcrypt sixBytes = false ∧
      (User.resetPassword exactBcrypt (fun _ => some sixBytes) oldUser).2.authenticate
        exactBcrypt (EncodeToString sixBytes) = true ∧
      User.resetPassword exactBcrypt (fun _ => none) oldUser = (([], some .rand), oldUser) := by
  decide

end Tbot
